import Mathlib

/-!
Verification of the systemcheck resource-limit resolution engine
(src/main.rs) against its specification.

The filesystem is modelled as a partial map from path strings to file
contents; every reader of the source is embedded as a pure function of
that map.  Rust `u64` values are modelled as `Nat` (every accepted parse
is range-checked against the `u64` bound, so no wrap-around can occur),
Rust `i64` as `Int` with the `i64` range enforced at parse time, and
Rust `f64` quota values as exact rationals `ℚ`; every concrete quota
value asserted below is exactly representable in binary64, so the
rational model agrees with the source on those points.
-/

/-- The filesystem: a path resolves to a file's contents, or to `none`
when the file is missing or unreadable (Rust `fs::read_to_string`
returning `Err`). -/
def FS : Type := String → Option String

/-- Rust `char::is_whitespace`, restricted to the ASCII range (all file
contents handled by the source are ASCII). -/
def isWS (c : Char) : Bool :=
  c = ' ' || c = '\t' || c = '\n' || c = '\r' || c = '\x0b' || c = '\x0c'

/-- Rust `str::trim`. -/
def rustTrim (s : String) : String :=
  String.mk (((s.toList.dropWhile isWS).reverse.dropWhile isWS).reverse)

/-- A nonempty run of decimal digits, evaluated as a number. -/
def parseDigits (cs : List Char) : Option Nat :=
  if !cs.isEmpty && cs.all Char.isDigit then
    some (cs.foldl (fun a c => 10 * a + (c.toNat - 48)) 0)
  else none

/-- Rust `str::parse::<u64>`: an optional plus sign, then a nonempty
digit run, and the value must fit in the `u64` range. -/
def parseU64 (s : String) : Option Nat :=
  let cs :=
    match s.toList with
    | '+' :: rest => rest
    | cs => cs
  match parseDigits cs with
  | some n => if n ≤ 18446744073709551615 then some n else none
  | none => none

/-- Rust `str::parse::<i64>`: an optional sign, then a nonempty digit
run, and the value must fit in the `i64` range. -/
def parseI64 (s : String) : Option Int :=
  match s.toList with
  | '-' :: rest =>
    match parseDigits rest with
    | some n => if n ≤ 9223372036854775808 then some (-(n : Int)) else none
    | none => none
  | '+' :: rest =>
    match parseDigits rest with
    | some n => if n ≤ 9223372036854775807 then some ((n : Int)) else none
    | none => none
  | cs =>
    match parseDigits cs with
    | some n => if n ≤ 9223372036854775807 then some ((n : Int)) else none
    | none => none

/-- Rust `str::split` with a `char` pattern: split at every occurrence
of `sep`, keeping empty fields. -/
def splitChar (sep : Char) : List Char → List (List Char)
  | [] => [[]]
  | c :: cs =>
    match splitChar sep cs with
    | [] => [[]]
    | w :: ws => if c = sep then [] :: w :: ws else (c :: w) :: ws

/-- Worker for `splitWhitespace`, carrying the reversed current word. -/
def wordsAux : List Char → List Char → List String
  | [], acc => if acc.isEmpty then [] else [String.mk acc.reverse]
  | c :: cs, acc =>
    if isWS c then
      if acc.isEmpty then wordsAux cs [] else String.mk acc.reverse :: wordsAux cs []
    else wordsAux cs (c :: acc)

/-- Rust `str::split_whitespace`: the maximal nonempty runs of
non-whitespace characters. -/
def splitWhitespace (s : String) : List String := wordsAux s.toList []

/-- Strip one trailing carriage return, as Rust `str::lines` does. -/
def stripCR (l : List Char) : List Char :=
  if l.getLast? = some '\r' then l.dropLast else l

/-- Rust `str::lines`: split on newline, drop the empty final segment
produced by a trailing newline, strip one trailing carriage return per
line. -/
def rustLines (s : String) : List (List Char) :=
  let parts := splitChar '\n' s.toList
  let parts := if parts.getLast? = some [] then parts.dropLast else parts
  parts.map stripCR

/-- The first list is a leading segment of the second
(Rust `str::starts_with`). -/
def leadsWith : List Char → List Char → Bool
  | [], _ => true
  | _ :: _, [] => false
  | p :: ps, c :: cs => p = c && leadsWith ps cs

/-- `pat` occurs as a contiguous segment (Rust `str::contains`). -/
def hasSub (pat : List Char) : List Char → Bool
  | [] => leadsWith pat []
  | c :: cs => leadsWith pat (c :: cs) || hasSub pat cs

/-- A finite filesystem fixture: an association list of path/contents
pairs. -/
def fsOf (entries : List (String × String)) : FS :=
  fun path => (entries.find? (fun e => e.1 == path)).map (fun e => e.2)

/-! ## Path templates of src/main.rs -/

/-- The cgroup v2 node-scoped `cpu.max` path. -/
def v2CpuMaxPath (cgroup_path : String) : String :=
  "/sys/fs/cgroup" ++ cgroup_path ++ "/cpu.max"

/-- The cgroup v2 node-scoped `memory.max` path. -/
def v2MemMaxPath (cgroup_path : String) : String :=
  "/sys/fs/cgroup" ++ cgroup_path ++ "/memory.max"

/-- The cgroup v2 node-scoped `memory.current` path. -/
def v2MemCurPath (cgroup_path : String) : String :=
  "/sys/fs/cgroup" ++ cgroup_path ++ "/memory.current"

/-- The cgroup v1 node-scoped `memory.limit_in_bytes` path. -/
def v1MemLimitPath (cgroup_path : String) : String :=
  "/sys/fs/cgroup/memory" ++ cgroup_path ++ "/memory.limit_in_bytes"

/-- The cgroup v1 node-scoped `memory.usage_in_bytes` path. -/
def v1MemUsagePath (cgroup_path : String) : String :=
  "/sys/fs/cgroup/memory" ++ cgroup_path ++ "/memory.usage_in_bytes"

/-- The cgroup v1 node-scoped `cpu.cfs_quota_us` path. -/
def v1CpuQuotaPath (cgroup_path : String) : String :=
  "/sys/fs/cgroup/cpu" ++ cgroup_path ++ "/cpu.cfs_quota_us"

/-- The cgroup v1 node-scoped `cpu.cfs_period_us` path. -/
def v1CpuPeriodPath (cgroup_path : String) : String :=
  "/sys/fs/cgroup/cpu" ++ cgroup_path ++ "/cpu.cfs_period_us"

/-! ## The Hierarchy Locator (`get_current_cgroup_path`, main.rs:452) -/

/-- First loop of `get_current_cgroup_path`: the first line starting
with `0::`, with that marker stripped (cgroup v2 membership line). -/
def findV2Line : List (List Char) → Option String
  | [] => none
  | l :: ls =>
    if leadsWith (String.toList ("0::")) l then some (String.mk (l.drop 3))
    else findV2Line ls

/-- Second loop of `get_current_cgroup_path`: the first line containing
`:memory:`, returning its third colon-delimited field when the line has
at least three fields (cgroup v1 membership line). -/
def findV1Line : List (List Char) → Option String
  | [] => none
  | l :: ls =>
    if hasSub (String.toList (":memory:")) l then
      let parts := splitChar ':' l
      if 3 ≤ parts.length then some (String.mk (parts.getD 2 [])) else findV1Line ls
    else findV1Line ls

/-- `get_current_cgroup_path` from src/main.rs: read the membership
listing, scan for a v2 line, then for a v1 memory line, and degrade to
the empty path without surfacing an error. -/
def get_current_cgroup_path (fs : FS) : String :=
  match fs ("/proc/self/cgroup") with
  | some contents =>
    match findV2Line (rustLines contents) with
    | some p => p
    | none =>
      match findV1Line (rustLines contents) with
      | some p => p
      | none => ""
  | none => ""

/-! ## The memory-limit resolver (`get_cgroup_memory_limit_for_path`,
main.rs:558) -/

/-- One attempt block of `get_cgroup_memory_limit_for_path`: read the
file, parse the trimmed contents as `u64`, accept the value when it is
strictly below `bound` (each of the four source blocks has exactly this
shape, with `bound` the schema's unlimited sentinel). -/
def memLimitTry (fs : FS) (path : String) (bound : Nat) : Option Nat :=
  match fs path with
  | some limit_str =>
    match parseU64 (rustTrim limit_str) with
    | some limit => if limit < bound then some limit else none
    | none => none
  | none => none

/-- `get_cgroup_memory_limit_for_path` from src/main.rs: v2 node file,
v2 root file, v1 node file, v1 root file, in that order; the v2 tiers
reject `u64::MAX`, the v1 tiers reject the legacy unlimited sentinel
`9223372036854771712`. -/
def get_cgroup_memory_limit_for_path (fs : FS) (cgroup_path : String) : Option Nat :=
  match memLimitTry fs (v2MemMaxPath cgroup_path) 18446744073709551615 with
  | some limit => some limit
  | none =>
  match memLimitTry fs ("/sys/fs/cgroup/memory.max") 18446744073709551615 with
  | some limit => some limit
  | none =>
  match memLimitTry fs (v1MemLimitPath cgroup_path) 9223372036854771712 with
  | some limit => some limit
  | none => memLimitTry fs ("/sys/fs/cgroup/memory/memory.limit_in_bytes") 9223372036854771712

/-! ## The memory-usage resolver (`get_cgroup_memory_usage_for_path`,
main.rs:602) -/

/-- One attempt block of `get_cgroup_memory_usage_for_path`: read the
file and parse the trimmed contents as `u64`; any parsed integer is
accepted. -/
def memUsageTry (fs : FS) (path : String) : Option Nat :=
  match fs path with
  | some usage_str => parseU64 (rustTrim usage_str)
  | none => none

/-- `get_cgroup_memory_usage_for_path` from src/main.rs: the same four
tiers as the memory limit, with no sentinel filtering. -/
def get_cgroup_memory_usage_for_path (fs : FS) (cgroup_path : String) : Option Nat :=
  match memUsageTry fs (v2MemCurPath cgroup_path) with
  | some usage => some usage
  | none =>
  match memUsageTry fs ("/sys/fs/cgroup/memory.current") with
  | some usage => some usage
  | none =>
  match memUsageTry fs (v1MemUsagePath cgroup_path) with
  | some usage => some usage
  | none => memUsageTry fs ("/sys/fs/cgroup/memory/memory.usage_in_bytes")

/-! ## The CPU-quota resolver (main.rs:479-556) -/

/-- The root-tier tail of `read_cgroup_v2_cpu_quota_for_path`
(main.rs:503-512): read `/sys/fs/cgroup/cpu.max`; a two-field record
whose first field is not `max` yields `quota / period`; everything
else, including a read or parse failure, is an error (`none`). -/
def readV2RootCpuQuota (fs : FS) : Option ℚ :=
  match fs ("/sys/fs/cgroup/cpu.max") with
  | some cpu_max =>
    match splitWhitespace (rustTrim cpu_max) with
    | [quota_str, period_str] =>
      if quota_str = "max" then none
      else
        match parseI64 quota_str, parseI64 period_str with
        | some quota, some period => some ((quota : ℚ) / (period : ℚ))
        | _, _ => none
    | _ => none
  | none => none

/-- `read_cgroup_v2_cpu_quota_for_path` from src/main.rs, with `none`
standing for `Err`.  A readable node file with exactly two fields and a
non-`max` first field commits to the parse: a parse failure there
propagates as an error (the source's `?` operator) and the root file is
not consulted; only a missing node file, a field count other than two,
or a `max` first field falls through to the root tier. -/
def read_cgroup_v2_cpu_quota_for_path (fs : FS) (cgroup_path : String) : Option ℚ :=
  match fs (v2CpuMaxPath cgroup_path) with
  | some cpu_max =>
    match splitWhitespace (rustTrim cpu_max) with
    | [quota_str, period_str] =>
      if quota_str = "max" then readV2RootCpuQuota fs
      else
        match parseI64 quota_str, parseI64 period_str with
        | some quota, some period => some ((quota : ℚ) / (period : ℚ))
        | _, _ => none
    | _ => readV2RootCpuQuota fs
  | none => readV2RootCpuQuota fs

/-- The shared body of the two v1 CPU-quota readers: both files must be
readable, parse as `i64` after trimming, and be strictly positive; the
resolved value is `quota / period`. -/
def readV1CpuQuotaAt (fs : FS) (quota_path period_path : String) : Option ℚ :=
  match fs quota_path, fs period_path with
  | some quota_str, some period_str =>
    match parseI64 (rustTrim quota_str), parseI64 (rustTrim period_str) with
    | some quota, some period =>
      if 0 < quota ∧ 0 < period then some ((quota : ℚ) / (period : ℚ)) else none
    | _, _ => none
  | _, _ => none

/-- `read_cgroup_v1_cpu_quota` from src/main.rs (the fixed root
sub-tree paths, no further fallback). -/
def read_cgroup_v1_cpu_quota (fs : FS) : Option ℚ :=
  readV1CpuQuotaAt fs ("/sys/fs/cgroup/cpu/cpu.cfs_quota_us") ("/sys/fs/cgroup/cpu/cpu.cfs_period_us")

/-- `read_cgroup_v1_cpu_quota_for_path` from src/main.rs: the node
files first; on any failure, the identical procedure on the root
sub-tree. -/
def read_cgroup_v1_cpu_quota_for_path (fs : FS) (cgroup_path : String) : Option ℚ :=
  match readV1CpuQuotaAt fs (v1CpuQuotaPath cgroup_path) (v1CpuPeriodPath cgroup_path) with
  | some q => some q
  | none => read_cgroup_v1_cpu_quota fs

/-- `get_cgroup_cpu_quota_for_path` from src/main.rs: the v2 procedure
first; on error, the v1 procedure. -/
def get_cgroup_cpu_quota_for_path (fs : FS) (cgroup_path : String) : Option ℚ :=
  match read_cgroup_v2_cpu_quota_for_path fs cgroup_path with
  | some quota => some quota
  | none => read_cgroup_v1_cpu_quota_for_path fs cgroup_path

/-! ## The Constraint Classifier (main.rs:87, 128-131, 236-254) -/

/-- The memory-constrained flag computed in `main` (main.rs:129-131):
`cgroup_memory_limit.map(|lim| lim < system_total).unwrap_or(false)`. -/
def constrained_mem (cgroup_memory_limit : Option Nat) (system_total : Nat) : Bool :=
  (cgroup_memory_limit.map (fun lim => decide (lim < system_total))).getD false

/-- `system_used` from `main` (main.rs:87):
`system_total.saturating_sub(system_available)`; on values below
`2 ^ 64` the `u64` saturating subtraction coincides with truncated
`Nat` subtraction. -/
def system_used (system_total system_available : Nat) : Nat :=
  system_total - system_available

/-- The usage-percent computation of `print_memory_info`
(main.rs:242-254): `none` when the percentage line is not printed.  The
source computes `(usage as f64 / limit as f64) * 100.0`, modelled here
exactly over `ℚ`. -/
def usage_percent (fs : FS) (system_total : Nat) : Option ℚ :=
  let cgroup_path := get_current_cgroup_path fs
  match get_cgroup_memory_limit_for_path fs cgroup_path with
  | some cgroup_limit =>
    if cgroup_limit < system_total then
      match get_cgroup_memory_usage_for_path fs cgroup_path with
      | some current_usage => some (((current_usage : ℚ) / (cgroup_limit : ℚ)) * 100)
      | none => none
    else none
  | none => none

/-! ## Specification-side definitions -/

/-- First success in an ordered list of attempts (the spec's fallback
table of tiers, tried in sequence). -/
def firstSome : List (Option Nat) → Option Nat
  | [] => none
  | o :: os =>
    match o with
    | some v => some v
    | none => firstSome os

/-- The four memory-limit tiers in the order the spec prescribes:
v2 node, v2 root, v1 node, v1 root, each with its schema's acceptance
bound. -/
def memLimitTiers (fs : FS) (cgroup_path : String) : List (Option Nat) :=
  [memLimitTry fs (v2MemMaxPath cgroup_path) 18446744073709551615,
   memLimitTry fs ("/sys/fs/cgroup/memory.max") 18446744073709551615,
   memLimitTry fs (v1MemLimitPath cgroup_path) 9223372036854771712,
   memLimitTry fs ("/sys/fs/cgroup/memory/memory.limit_in_bytes") 9223372036854771712]

/-- The Hierarchy Locator contract as amended: the remainder of the
first `0::`-tagged line; otherwise the third colon-delimited field of
the first line containing `:memory:` (such a line always has at least
three colon-delimited fields); otherwise the empty string. -/
def cgroupPathSpec (ls : List (List Char)) : String :=
  match ls.find? (fun l => leadsWith (String.toList ("0::")) l) with
  | some l => String.mk (l.drop 3)
  | none =>
    match ls.find? (fun l => hasSub (String.toList (":memory:")) l && decide (3 ≤ (splitChar ':' l).length)) with
    | some l => String.mk ((splitChar ':' l).getD 2 [])
    | none => ""

/-! ## Concrete filesystem fixtures -/

/-- C1 counterexample fixture: no v2 node file, a v2 root limit of 100,
and a v1 node limit of 200, for node `/node`. -/
def fsC1 : FS :=
  fsOf [("/sys/fs/cgroup/memory.max", "100"),
        ("/sys/fs/cgroup/memory/node/memory.limit_in_bytes", "200")]

/-- C1 witness fixture: an accepted v2 node limit alongside a differing
v2 root limit. -/
def fsW1 : FS :=
  fsOf [("/sys/fs/cgroup/node/memory.max", "123"),
        ("/sys/fs/cgroup/memory.max", "456")]

/-- C1 witness fixture for the v1 tiers: only a v1 node limit and a
differing v1 root limit are present. -/
def fsW1v1 : FS :=
  fsOf [("/sys/fs/cgroup/memory/node/memory.limit_in_bytes", "77"),
        ("/sys/fs/cgroup/memory/memory.limit_in_bytes", "88")]

/-- C2 witness fixture: every memory-limit file reports its schema's
unlimited sentinel. -/
def fsC2w : FS :=
  fsOf [("/sys/fs/cgroup/node/memory.max", "max"),
        ("/sys/fs/cgroup/memory.max", "max"),
        ("/sys/fs/cgroup/memory/node/memory.limit_in_bytes", "9223372036854771712"),
        ("/sys/fs/cgroup/memory/memory.limit_in_bytes", "9223372036854771712")]

/-- C2 witness fixture: a small accepted v2 node limit. -/
def fsW2 : FS :=
  fsOf [("/sys/fs/cgroup/node/memory.max", "3")]

/-- C3 counterexample fixture: the node `cpu.max` is a two-field record
with a non-numeric quota field, while the root `cpu.max` is a perfectly
parseable `100000 100000`; no v1 files exist. -/
def fsC3 : FS :=
  fsOf [("/sys/fs/cgroup/node/cpu.max", "abc 100000"),
        ("/sys/fs/cgroup/cpu.max", "100000 100000")]

/-- C3 witness fixture: no node `cpu.max`, a root quota of half a
CPU. -/
def fsW3 : FS :=
  fsOf [("/sys/fs/cgroup/cpu.max", "50000 100000")]

/-- C4 counterexample fixture: a v1 membership line whose middle field
is `memory` and whose last colon-delimited field (`b`) differs from its
third field (`/a`). -/
def fsC4 : FS :=
  fsOf [("/proc/self/cgroup", "1:memory:/a:b\n")]

/-- C4 witness fixture: a v2 membership line. -/
def fsW4 : FS :=
  fsOf [("/proc/self/cgroup", "0::/x\n")]

/-- C5 witness fixture (spec scenario D): v1 node quota 150000 us over
period 100000 us. -/
def fsD : FS :=
  fsOf [("/sys/fs/cgroup/cpu/node/cpu.cfs_quota_us", "150000"),
        ("/sys/fs/cgroup/cpu/node/cpu.cfs_period_us", "100000")]

/-- C9 fixture: the process is at the hierarchy root (no membership
file), the memory limit resolves to 1000 bytes and the usage to 500
bytes. -/
def fsC9 : FS :=
  fsOf [("/sys/fs/cgroup/memory.max", "1000"),
        ("/sys/fs/cgroup/memory.current", "500")]

/-- C10 fixture: a v2 node quota record with a negative quota field. -/
def fsC10 : FS :=
  fsOf [("/sys/fs/cgroup/node/cpu.max", "-1 100000")]

/-- C10 fixture for the v1 contrast: a v1 node quota of -1 with a
positive period. -/
def fsC10v1 : FS :=
  fsOf [("/sys/fs/cgroup/cpu/node/cpu.cfs_quota_us", "-1"),
        ("/sys/fs/cgroup/cpu/node/cpu.cfs_period_us", "100000")]

/-! ## Helper lemmas -/

/-- Helper: an accepted memory-limit tier value is strictly below the
tier's bound. -/
theorem memLimitTry_lt_bound {fs : FS} {path : String} {bound v : Nat}
    (h : memLimitTry fs path bound = some v) : v < bound := by
  unfold memLimitTry at h
  split at h
  next s heq =>
    split at h
    next n heq2 =>
      split at h
      next hb => cases h; exact hb
      next hb => cases h
    next => cases h
  next => cases h

/-- Helper: the first scan loop of the locator is a `find?` over the
lines. -/
theorem findV2Line_eq (ls : List (List Char)) :
    findV2Line ls = (ls.find? (fun l => leadsWith (String.toList ("0::")) l)).map
      (fun l => String.mk (l.drop 3)) := by
  induction ls with
  | nil => rfl
  | cons l ls ih =>
    cases h : leadsWith (String.toList ("0::")) l <;>
    simp_all [findV2Line, List.find?_cons]

/-- Helper: the second scan loop of the locator is a `find?` over the
lines. -/
theorem findV1Line_eq (ls : List (List Char)) :
    findV1Line ls = (ls.find? (fun l => hasSub (String.toList (":memory:")) l &&
        decide (3 ≤ (splitChar ':' l).length))).map
      (fun l => String.mk ((splitChar ':' l).getD 2 [])) := by
  induction ls with
  | nil => rfl
  | cons l ls ih =>
    cases h1 : hasSub (String.toList (":memory:")) l
    · simp_all [findV1Line, List.find?_cons]
    · by_cases h2 : 3 ≤ (splitChar ':' l).length
      · simp_all [findV1Line, List.find?_cons]
      · simp_all [findV1Line, List.find?_cons]

/-! ## Claim C1 -/

/-- Claim C1, counterexample: on a filesystem where the v2 node file is
absent, the v2 root file holds 100 and the v1 node file holds an
accepted 200, the resolved memory limit is the root-tier 100, so a
value accepted at a node tier (here the v1 node tier) is overridden by
a root-tier value, contradicting the claim as stated. -/
theorem C1_counterexample :
    memLimitTry fsC1 (v1MemLimitPath ("/node")) 9223372036854771712 = some 200 ∧
    memLimitTry fsC1 ("/sys/fs/cgroup/memory.max") 18446744073709551615 = some 100 ∧
    get_cgroup_memory_limit_for_path fsC1 ("/node") = some 100 ∧
    get_cgroup_memory_limit_for_path fsC1 ("/node") ≠ some 200 := by decide

/-- Claim C1, amended: the memory-limit resolver tries exactly the four
tiers v2 node, v2 root, v1 node, v1 root in that order and returns the
first accepted value; consequently an accepted v2 node value is always
the result, and once both v2 tiers reject, an accepted v1 node value is
never overridden by the v1 root — but an accepted v2 root value does
take precedence over the v1 node tier. -/
theorem C1_memory_limit_tier_order (fs : FS) (cgroup_path : String) :
    get_cgroup_memory_limit_for_path fs cgroup_path = firstSome (memLimitTiers fs cgroup_path) ∧
    (∀ v, memLimitTry fs (v2MemMaxPath cgroup_path) 18446744073709551615 = some v →
      get_cgroup_memory_limit_for_path fs cgroup_path = some v) ∧
    (memLimitTry fs (v2MemMaxPath cgroup_path) 18446744073709551615 = none →
     memLimitTry fs ("/sys/fs/cgroup/memory.max") 18446744073709551615 = none →
     ∀ v, memLimitTry fs (v1MemLimitPath cgroup_path) 9223372036854771712 = some v →
      get_cgroup_memory_limit_for_path fs cgroup_path = some v) := by
  refine ⟨?_, ?_, ?_⟩
  · cases h1 : memLimitTry fs (v2MemMaxPath cgroup_path) 18446744073709551615 <;>
    cases h2 : memLimitTry fs ("/sys/fs/cgroup/memory.max") 18446744073709551615 <;>
    cases h3 : memLimitTry fs (v1MemLimitPath cgroup_path) 9223372036854771712 <;>
    cases h4 : memLimitTry fs ("/sys/fs/cgroup/memory/memory.limit_in_bytes") 9223372036854771712 <;>
    simp [get_cgroup_memory_limit_for_path, memLimitTiers, firstSome, h1, h2, h3, h4]
  · intro v h
    simp only [get_cgroup_memory_limit_for_path, h]
  · intro h1 h2 v h3
    simp only [get_cgroup_memory_limit_for_path, h1, h2, h3]

/-- Claim C1, witness: a v2 node value wins over a differing v2 root
value, and with both v2 tiers rejecting, a v1 node value wins over a
differing v1 root value. -/
theorem C1_memory_limit_tier_order_witness :
    get_cgroup_memory_limit_for_path fsW1 ("/node") = some 123 ∧
    get_cgroup_memory_limit_for_path fsW1v1 ("/node") = some 77 :=
  ⟨(C1_memory_limit_tier_order fsW1 ("/node")).2.1 123 (by decide),
   (C1_memory_limit_tier_order fsW1v1 ("/node")).2.2 (by decide) (by decide) 77 (by decide)⟩

/-! ## Claim C2 -/

/-- Claim C2: a memory-limit file holding its schema's unlimited
sentinel (the literal `max` for v2, the legacy integer
9223372036854771712 for v1) is treated as absent at its tier, and every
present resolved memory limit is strictly below the platform maximum
`u64::MAX` = 18446744073709551615. -/
theorem C2_unlimited_sentinel_absent (fs : FS) (cgroup_path path s : String) :
    (fs path = some s → rustTrim s = "max" →
      memLimitTry fs path 18446744073709551615 = none) ∧
    (fs path = some s → rustTrim s = "9223372036854771712" →
      memLimitTry fs path 9223372036854771712 = none) ∧
    (∀ v, get_cgroup_memory_limit_for_path fs cgroup_path = some v →
      v < 18446744073709551615) := by
  refine ⟨?_, ?_, ?_⟩
  · intro h1 h2
    simp only [memLimitTry, h1, h2]
    decide
  · intro h1 h2
    simp only [memLimitTry, h1, h2]
    decide
  · intro v hv
    unfold get_cgroup_memory_limit_for_path at hv
    split at hv
    next h1 => cases hv; exact memLimitTry_lt_bound h1
    next =>
      split at hv
      next h2 => cases hv; exact memLimitTry_lt_bound h2
      next =>
        split at hv
        next h3 => cases hv; exact lt_trans (memLimitTry_lt_bound h3) (by norm_num)
        next => exact lt_trans (memLimitTry_lt_bound hv) (by norm_num)

/-- Claim C2, witness: with every tier reporting its schema's sentinel
the v2 and v1 tiers evaluate to absent, and on a fixture with an
accepted value 3 the bound holds concretely. -/
theorem C2_unlimited_sentinel_absent_witness :
    memLimitTry fsC2w ("/sys/fs/cgroup/memory.max") 18446744073709551615 = none ∧
    memLimitTry fsC2w (v1MemLimitPath ("/node")) 9223372036854771712 = none ∧
    (3 : Nat) < 18446744073709551615 :=
  ⟨(C2_unlimited_sentinel_absent fsC2w ("/node") ("/sys/fs/cgroup/memory.max") ("max")).1
      (by decide) (by decide),
   (C2_unlimited_sentinel_absent fsC2w ("/node") (v1MemLimitPath ("/node"))
      ("9223372036854771712")).2.1 (by decide) (by decide),
   (C2_unlimited_sentinel_absent fsW2 ("/node") ("x") ("y")).2.2 3 (by decide)⟩

/-! ## Claim C3 -/

/-- Claim C3, counterexample: with a node `cpu.max` of `abc 100000`
(two fields, unparseable quota) and a perfectly parseable root `cpu.max`
of `100000 100000`, the v2 procedure errors out without retrying the
root, and the overall CPU quota is absent instead of the root's 1.0,
contradicting "whenever the node file is missing or unparseable, the
resolver retries the identical procedure against the root's file". -/
theorem C3_counterexample :
    fsC3 (v2CpuMaxPath ("/node")) = some ("abc 100000") ∧
    parseI64 ("abc") = none ∧
    readV2RootCpuQuota fsC3 = some 1 ∧
    read_cgroup_v2_cpu_quota_for_path fsC3 ("/node") = none ∧
    get_cgroup_cpu_quota_for_path fsC3 ("/node") = none := by
  refine ⟨by decide, by decide, ?_, by decide, by decide⟩
  rw [show readV2RootCpuQuota fsC3 = some (((100000 : Int) : ℚ) / ((100000 : Int) : ℚ)) from rfl]
  norm_num

/-- Claim C3, amended: the v2 resolver retries the identical procedure
against the root quota file when the node file is missing, has a field
count other than two, or reports the `max` sentinel; but a two-field
node record with a non-`max` first field commits to the parse, and a
parse failure there yields an error without consulting the root.  A
successful two-field parse yields `quota / period`.  Whenever the whole
v2 procedure produces no limit the v1 procedure is attempted, and a v2
success takes precedence over v1. -/
theorem C3_v2_cpu_quota_fallback (fs : FS) (cgroup_path : String) :
    (fs (v2CpuMaxPath cgroup_path) = none →
      read_cgroup_v2_cpu_quota_for_path fs cgroup_path = readV2RootCpuQuota fs) ∧
    (∀ s, fs (v2CpuMaxPath cgroup_path) = some s →
      (∀ a b, splitWhitespace (rustTrim s) ≠ [a, b]) →
      read_cgroup_v2_cpu_quota_for_path fs cgroup_path = readV2RootCpuQuota fs) ∧
    (∀ s b, fs (v2CpuMaxPath cgroup_path) = some s →
      splitWhitespace (rustTrim s) = [("max"), b] →
      read_cgroup_v2_cpu_quota_for_path fs cgroup_path = readV2RootCpuQuota fs) ∧
    (∀ s a b, fs (v2CpuMaxPath cgroup_path) = some s →
      splitWhitespace (rustTrim s) = [a, b] → a ≠ "max" →
      (parseI64 a = none ∨ parseI64 b = none) →
      read_cgroup_v2_cpu_quota_for_path fs cgroup_path = none) ∧
    (∀ s a b q p, fs (v2CpuMaxPath cgroup_path) = some s →
      splitWhitespace (rustTrim s) = [a, b] → a ≠ "max" →
      parseI64 a = some q → parseI64 b = some p →
      read_cgroup_v2_cpu_quota_for_path fs cgroup_path = some ((q : ℚ) / (p : ℚ))) ∧
    (∀ q, read_cgroup_v2_cpu_quota_for_path fs cgroup_path = some q →
      get_cgroup_cpu_quota_for_path fs cgroup_path = some q) ∧
    (read_cgroup_v2_cpu_quota_for_path fs cgroup_path = none →
      get_cgroup_cpu_quota_for_path fs cgroup_path = read_cgroup_v1_cpu_quota_for_path fs cgroup_path) := by
  refine ⟨?_, ?_, ?_, ?_, ?_, ?_, ?_⟩
  · intro h
    simp only [read_cgroup_v2_cpu_quota_for_path, h]
  · intro s hs hne
    simp only [read_cgroup_v2_cpu_quota_for_path, hs]
  · intro s b hs hsp
    simp [read_cgroup_v2_cpu_quota_for_path, hs, hsp]
  · intro s a b hs hsp hmax hp
    rcases hp with h | h
    · cases hb : parseI64 b <;>
      simp [read_cgroup_v2_cpu_quota_for_path, hs, hsp, hmax, h, hb]
    · cases ha : parseI64 a <;>
      simp [read_cgroup_v2_cpu_quota_for_path, hs, hsp, hmax, h, ha]
  · intro s a b q p hs hsp hmax hq hp
    simp [read_cgroup_v2_cpu_quota_for_path, hs, hsp, hmax, hq, hp]
  · intro q h
    simp only [get_cgroup_cpu_quota_for_path, h]
  · intro h
    simp only [get_cgroup_cpu_quota_for_path, h]

/-- Claim C3, witness: a missing node file falls back to the root tier,
and a v2 success is returned unchanged by the combined resolver. -/
theorem C3_v2_cpu_quota_fallback_witness :
    read_cgroup_v2_cpu_quota_for_path fsW3 ("/node") = readV2RootCpuQuota fsW3 ∧
    get_cgroup_cpu_quota_for_path fsC10 ("/node") =
      some (((-1 : Int) : ℚ) / ((100000 : Int) : ℚ)) :=
  ⟨(C3_v2_cpu_quota_fallback fsW3 ("/node")).1 (by decide),
   (C3_v2_cpu_quota_fallback fsC10 ("/node")).2.2.2.2.2.1 _ rfl⟩

/-! ## Claim C4 -/

/-- Claim C4, counterexample: the membership line `1:memory:/a:b` has
middle field `memory` and last colon-delimited field `b`, yet the
locator returns the third field `/a`, contradicting "the last
colon-delimited field of that line". -/
theorem C4_counterexample :
    fsC4 ("/proc/self/cgroup") = some ("1:memory:/a:b\n") ∧
    (splitChar ':' (String.toList ("1:memory:/a:b"))).map String.mk =
      [("1"), ("memory"), ("/a"), ("b")] ∧
    get_current_cgroup_path fsC4 = "/a" ∧
    get_current_cgroup_path fsC4 ≠ "b" := by decide

/-- Claim C4, amended: for every readable membership listing the
locator returns the remainder of the first `0::`-tagged line when one
exists; otherwise the third colon-delimited field (not the last) of the
first line containing the substring `:memory:` (not necessarily as its
middle field); and the empty string when neither pattern is found or
the file is unreadable, surfacing no error in any case. -/
theorem C4_hierarchy_locator (fs : FS) :
    (fs ("/proc/self/cgroup") = none → get_current_cgroup_path fs = "") ∧
    (∀ c, fs ("/proc/self/cgroup") = some c →
      get_current_cgroup_path fs = cgroupPathSpec (rustLines c)) := by
  constructor
  · intro h
    simp [get_current_cgroup_path, h]
  · intro c h
    simp only [get_current_cgroup_path, cgroupPathSpec, h, findV2Line_eq, findV1Line_eq]
    cases hf : (rustLines c).find? (fun l => leadsWith (String.toList ("0::")) l) with
    | some l => simp [hf]
    | none =>
      simp only [hf, Option.map_none']
      cases hg : (rustLines c).find? (fun l => hasSub (String.toList (":memory:")) l &&
          decide (3 ≤ (splitChar ':' l).length)) with
      | some l => simp [hg]
      | none => simp [hg]

/-- Claim C4, witness: an unreadable membership file yields the empty
path, and a v2-tagged listing yields its specified path. -/
theorem C4_hierarchy_locator_witness :
    get_current_cgroup_path (fsOf []) = "" ∧
    get_current_cgroup_path fsW4 = cgroupPathSpec (rustLines ("0::/x\n")) :=
  ⟨(C4_hierarchy_locator (fsOf [])).1 rfl,
   (C4_hierarchy_locator fsW4).2 ("0::/x\n") (by decide)⟩

/-! ## Claim C5 -/

/-- Claim C5: a v1 CPU limit is resolved at a tier exactly when both
the quota and period files are present, parse as integers and are
strictly positive, in which case the value is `quota / period`; on any
failure at the node tier the identical procedure is applied to the
root CPU sub-tree; and node `cpu.cfs_quota_us` 150000 with
`cpu.cfs_period_us` 100000 resolves to 1.5 (= 3/2, exactly
representable in binary64). -/
theorem C5_v1_cpu_quota (fs : FS) (cgroup_path : String) :
    (∀ qs ps q per, fs (v1CpuQuotaPath cgroup_path) = some qs →
      fs (v1CpuPeriodPath cgroup_path) = some ps →
      parseI64 (rustTrim qs) = some q → parseI64 (rustTrim ps) = some per →
      0 < q → 0 < per →
      read_cgroup_v1_cpu_quota_for_path fs cgroup_path = some ((q : ℚ) / (per : ℚ))) ∧
    (∀ v, readV1CpuQuotaAt fs (v1CpuQuotaPath cgroup_path) (v1CpuPeriodPath cgroup_path) = some v →
      ∃ qs ps q per, fs (v1CpuQuotaPath cgroup_path) = some qs ∧
        fs (v1CpuPeriodPath cgroup_path) = some ps ∧
        parseI64 (rustTrim qs) = some q ∧ parseI64 (rustTrim ps) = some per ∧
        0 < q ∧ 0 < per ∧ v = (q : ℚ) / (per : ℚ)) ∧
    (readV1CpuQuotaAt fs (v1CpuQuotaPath cgroup_path) (v1CpuPeriodPath cgroup_path) = none →
      read_cgroup_v1_cpu_quota_for_path fs cgroup_path = read_cgroup_v1_cpu_quota fs) ∧
    read_cgroup_v1_cpu_quota_for_path fsD ("/node") = some ((3 : ℚ) / 2) := by
  refine ⟨?_, ?_, ?_, ?_⟩
  · intro qs ps q per h1 h2 h3 h4 hq hper
    simp only [read_cgroup_v1_cpu_quota_for_path, readV1CpuQuotaAt, h1, h2, h3, h4]
    rw [if_pos ⟨hq, hper⟩]
  · intro v h
    unfold readV1CpuQuotaAt at h
    split at h
    next qs ps hqs hps =>
      split at h
      next q per hq hper =>
        split at h
        next hpos =>
          cases h
          exact ⟨qs, ps, q, per, hqs, hps, hq, hper, hpos.1, hpos.2, rfl⟩
        next => cases h
      next => cases h
    next => cases h
  · intro h
    simp only [read_cgroup_v1_cpu_quota_for_path, h]
  · rw [show read_cgroup_v1_cpu_quota_for_path fsD ("/node") =
      some (((150000 : Int) : ℚ) / ((100000 : Int) : ℚ)) from rfl]
    norm_num

/-- Claim C5, witness: scenario D concretely through the positive
clause, and the root fallback on an empty filesystem. -/
theorem C5_v1_cpu_quota_witness :
    read_cgroup_v1_cpu_quota_for_path fsD ("/node") =
      some (((150000 : Int) : ℚ) / ((100000 : Int) : ℚ)) ∧
    read_cgroup_v1_cpu_quota_for_path (fsOf []) ("/node") = read_cgroup_v1_cpu_quota (fsOf []) :=
  ⟨(C5_v1_cpu_quota fsD ("/node")).1 ("150000") ("100000") 150000 100000
      (by decide) (by decide) (by decide) (by decide) (by decide) (by decide),
   (C5_v1_cpu_quota (fsOf []) ("/node")).2.2.1 (by decide)⟩

/-! ## Claim C6 -/

/-- Claim C6: the memory-constrained flag is false whenever the
resolved memory limit is absent, regardless of the system total; it is
true exactly when a limit is present and strictly less than the system
total; and at the boundary limit = total it is false. -/
theorem C6_memory_constrained (o : Option Nat) (system_total : Nat) :
    constrained_mem none system_total = false ∧
    constrained_mem (some system_total) system_total = false ∧
    (constrained_mem o system_total = true ↔ ∃ lim, o = some lim ∧ lim < system_total) := by
  refine ⟨rfl, by simp [constrained_mem], ?_⟩
  cases o <;> simp [constrained_mem]

/-- Claim C6, witness: a concrete present limit below the total is
flagged as constrained. -/
theorem C6_memory_constrained_witness : constrained_mem (some 5) 10 = true :=
  (C6_memory_constrained (some 5) 10).2.2.mpr ⟨5, rfl, by decide⟩

/-! ## Claim C8 -/

/-- Claim C8: used bytes are computed by saturating subtraction: the
result never exceeds the total (so it cannot be an underflowed huge
number), it is 0 whenever availability meets or exceeds the total, and
it is the exact difference otherwise. -/
theorem C8_used_bytes_saturating (system_total system_available : Nat) :
    system_used system_total system_available ≤ system_total ∧
    (system_total ≤ system_available → system_used system_total system_available = 0) ∧
    (system_available ≤ system_total →
      system_used system_total system_available + system_available = system_total) := by
  unfold system_used
  exact ⟨Nat.sub_le _ _, Nat.sub_eq_zero_of_le, Nat.sub_add_cancel⟩

/-- Claim C8, witness: a fabricated state with availability above the
total yields 0, and a normal state yields the exact difference. -/
theorem C8_used_bytes_saturating_witness :
    system_used 5 10 = 0 ∧ system_used 10 4 + 4 = 10 :=
  ⟨(C8_used_bytes_saturating 5 10).2.1 (by decide),
   (C8_used_bytes_saturating 10 4).2.2 (by decide)⟩

/-! ## Claim C9 -/

/-- Claim C9, counterexample: with the resolved memory limit (1000) and
the resolved usage (500) both present but the limit not below the
system total (1000), the usage percentage is omitted, contradicting
"computed exactly when both the resolved memory limit and the resolved
memory usage are present". -/
theorem C9_counterexample :
    get_cgroup_memory_limit_for_path fsC9 (get_current_cgroup_path fsC9) = some 1000 ∧
    get_cgroup_memory_usage_for_path fsC9 (get_current_cgroup_path fsC9) = some 500 ∧
    usage_percent fsC9 1000 = none := by decide

/-- Claim C9, amended: the usage percentage equals
`100 * usage / limit` and is computed exactly when the resolved memory
limit is present, strictly less than the system total, and the
resolved usage is present; in every other case it is omitted, never
defaulted to zero. -/
theorem C9_usage_percent_gating (fs : FS) (system_total : Nat) (r : ℚ) :
    usage_percent fs system_total = some r ↔
    ∃ lim usage, get_cgroup_memory_limit_for_path fs (get_current_cgroup_path fs) = some lim ∧
      lim < system_total ∧
      get_cgroup_memory_usage_for_path fs (get_current_cgroup_path fs) = some usage ∧
      r = 100 * (usage : ℚ) / (lim : ℚ) := by
  simp only [usage_percent]
  cases hl : get_cgroup_memory_limit_for_path fs (get_current_cgroup_path fs) with
  | none => simp
  | some lim =>
    by_cases hlt : lim < system_total
    · simp only [if_pos hlt]
      cases hu : get_cgroup_memory_usage_for_path fs (get_current_cgroup_path fs) with
      | none => simp
      | some u =>
        simp only [Option.some_inj]
        constructor
        · intro h
          exact ⟨lim, u, rfl, hlt, rfl, by
            rw [← h, div_mul_eq_mul_div, mul_comm]⟩
        · rintro ⟨lim', u', h1, h2, h3, h4⟩
          cases h1
          cases h3
          rw [h4, div_mul_eq_mul_div, mul_comm]
    · simp only [if_neg hlt]
      constructor
      · intro h
        cases h
      · rintro ⟨lim', u', h1, h2, h3, h4⟩
        cases h1
        exact absurd h2 hlt

/-- Claim C9, witness: with limit 1000 present and below the total
3000 and usage 500 present, the percentage is exactly 50. -/
theorem C9_usage_percent_gating_witness :
    usage_percent fsC9 3000 = some (100 * (500 : ℚ) / (1000 : ℚ)) :=
  (C9_usage_percent_gating fsC9 3000 (100 * (500 : ℚ) / (1000 : ℚ))).mpr
    ⟨1000, 500, by decide, by decide, by decide, by norm_num⟩

/-! ## Claim C10 -/

/-- Claim C10: the v2 CPU-quota tier applies no positivity filtering
beyond rejecting the literal `max`: a two-field record with a negative
parsed quota and positive period yields a present negative CPU limit,
whereas the v1 tier rejects any non-positive quota at that tier; in
particular the node record `-1 100000` is accepted by v2 and the
analogous v1 state resolves to no node-tier limit. -/
theorem C10_v2_negative_quota_accepted (fs : FS) (cgroup_path : String) :
    (∀ s a b q p, fs (v2CpuMaxPath cgroup_path) = some s →
      splitWhitespace (rustTrim s) = [a, b] → a ≠ "max" →
      parseI64 a = some q → parseI64 b = some p → q < 0 → 0 < p →
      ∃ r, read_cgroup_v2_cpu_quota_for_path fs cgroup_path = some r ∧ r < 0) ∧
    (∀ qs ps q per, fs (v1CpuQuotaPath cgroup_path) = some qs →
      fs (v1CpuPeriodPath cgroup_path) = some ps →
      parseI64 (rustTrim qs) = some q → parseI64 (rustTrim ps) = some per →
      q ≤ 0 →
      readV1CpuQuotaAt fs (v1CpuQuotaPath cgroup_path) (v1CpuPeriodPath cgroup_path) = none) ∧
    (∃ r, read_cgroup_v2_cpu_quota_for_path fsC10 ("/node") = some r ∧ r < 0) ∧
    readV1CpuQuotaAt fsC10v1 (v1CpuQuotaPath ("/node")) (v1CpuPeriodPath ("/node")) = none := by
  refine ⟨?_, ?_, ?_, ?_⟩
  · intro s a b q p hs hsp hmax hq hp hqneg hppos
    refine ⟨(q : ℚ) / (p : ℚ), ?_, ?_⟩
    · simp [read_cgroup_v2_cpu_quota_for_path, hs, hsp, hmax, hq, hp]
    · apply div_neg_of_neg_of_pos
      · exact_mod_cast hqneg
      · exact_mod_cast hppos
  · intro qs ps q per h1 h2 h3 h4 hq
    simp only [readV1CpuQuotaAt, h1, h2, h3, h4]
    rw [if_neg (fun hpos => absurd hpos.1 (not_lt.mpr hq))]
  · exact ⟨((-1 : Int) : ℚ) / ((100000 : Int) : ℚ), rfl, by norm_num⟩
  · decide

/-- Claim C10, witness: the general clauses instantiated at the
concrete fixtures `-1 100000` (v2) and quota -1, period 100000 (v1). -/
theorem C10_v2_negative_quota_accepted_witness :
    (∃ r, read_cgroup_v2_cpu_quota_for_path fsC10 ("/node") = some r ∧ r < 0) ∧
    readV1CpuQuotaAt fsC10v1 (v1CpuQuotaPath ("/node")) (v1CpuPeriodPath ("/node")) = none :=
  ⟨(C10_v2_negative_quota_accepted fsC10 ("/node")).1 ("-1 100000") ("-1") ("100000")
      (-1) 100000 (by decide) (by decide) (by decide) (by decide) (by decide)
      (by decide) (by decide),
   (C10_v2_negative_quota_accepted fsC10v1 ("/node")).2.1 ("-1") ("100000") (-1) 100000
      (by decide) (by decide) (by decide) (by decide) (by decide)⟩
